import Mathlib

/-!
Shallow embedding of the testbox firmware (src/testbox.ino).

Machine integers: `unsigned long` (32-bit on the ESP8266 target) is modelled
as `Nat` with explicit reduction modulo 2^32 where the code relies on wrap
around; `int`/`long` (also 32-bit) are modelled as `Int`, with `strtol`'s
saturation at LONG_MIN/LONG_MAX made explicit.

Hardware collaborators (analogWrite, Servo, DHT sensor) are external per the
design; `State::write` only forwards the already-clamped values to them, so
its driver side effects are not part of the model.  Float sensor readings are
carried as their printed form (`String`), since the claims never inspect them.
-/

/-- Modulus of 32-bit unsigned arithmetic (`unsigned long` on the target). -/
def U32MOD : Nat := 4294967296

/-- Reduction of a natural number into 32-bit unsigned range. -/
def u32 (n : Nat) : Nat := n % U32MOD

/-- Wrap-around subtraction `a - b` on 32-bit unsigned values. -/
def u32sub (a b : Nat) : Nat := (u32 a + (U32MOD - u32 b)) % U32MOD

/-- Conversion of a (32-bit) signed value to `unsigned long`. -/
def intToU32 (i : Int) : Nat := (i % (U32MOD : Int)).toNat

/-- ClampedInt::clamped — `val > MAX_V ? MAX_V : (val < MIN_V ? MIN_V : val)`. -/
def clamped (minV maxV v : Int) : Int :=
  if v > maxV then maxV else if v < minV then minV else v

/-- ClampedInt<MIN_V, MAX_V, DEF_V>: the stored `val_` field. -/
structure ClampedInt (minV maxV defV : Int) where
  val : Int
deriving DecidableEq, Repr

/-- ClampedInt(int val) constructor: stores `clamped(val)`. -/
def ClampedInt.ofVal {minV maxV defV : Int} (v : Int) : ClampedInt minV maxV defV :=
  ⟨clamped minV maxV v⟩

/-- ClampedInt() default constructor: stores `DEF_V` unclamped. -/
def ClampedInt.ofDefault {minV maxV defV : Int} : ClampedInt minV maxV defV :=
  ⟨defV⟩

/-- ClampedInt::get. -/
def ClampedInt.get {minV maxV defV : Int} (c : ClampedInt minV maxV defV) : Int :=
  c.val

/-- ClampedInt::set (also operator=): `val_ = clamped(val)`. -/
def ClampedInt.set {minV maxV defV : Int} (_c : ClampedInt minV maxV defV) (v : Int) :
    ClampedInt minV maxV defV :=
  ⟨clamped minV maxV v⟩

/-- typedef ClampedInt<0, 1023, 0> LedValue. -/
abbrev LedValue := ClampedInt 0 1023 0

/-- typedef ClampedInt<0, 180, 90> ServoValue. -/
abbrev ServoValue := ClampedInt 0 180 90

/-- TempSensorValue; the two float readings are carried as their printed form. -/
structure TempSensorValue where
  timestamp : Nat
  status : String
  temperature : String
  humidity : String
deriving DecidableEq, Repr

/-- TempSensorValue() constructor: zero timestamp, empty status, zero readings. -/
def TempSensorValue.init : TempSensorValue :=
  ⟨0, "", "0.00", "0.00"⟩

/-- The actuator part of `State`: three LED intensities and the servo angle,
plus the last sensor snapshot. -/
structure ActState where
  red : LedValue
  yellow : LedValue
  green : LedValue
  servo : ServoValue
  sensor : TempSensorValue
deriving DecidableEq, Repr

/-- Default-constructed `State`: each ClampedInt holds its DEF value. -/
def ActState.init : ActState :=
  ⟨ClampedInt.ofDefault, ClampedInt.ofDefault, ClampedInt.ofDefault,
   ClampedInt.ofDefault, TempSensorValue.init⟩

/-- SelfTester::Target. -/
structure Target where
  red : Int
  yellow : Int
  green : Int
  servo : Int
  wait_ms : Int
deriving DecidableEq, Repr

/-- Placeholder target; `stepRun` only reads it under the bound `step < length`. -/
def Target.zero : Target := ⟨0, 0, 0, 0, 0⟩

/-- SelfTester's fields: `targets_`, `active_`, `step_`, `next_step_timestamp_`. -/
structure SelfTester where
  targets : List Target
  active : Bool
  step : Nat
  next : Nat
deriving DecidableEq, Repr

/-- SelfTester::is_active. -/
def SelfTester.is_active (st : SelfTester) : Bool :=
  st.active

/-- SelfTester::progress — `0` unless active and non-empty, else `100*step_/size`. -/
def SelfTester.progress (st : SelfTester) : Nat :=
  if st.active = false ∨ st.targets.length = 0 then 0
  else 100 * st.step / st.targets.length

/-- SelfTester::start — no-op when active, else reset step, mark active,
deadline := millis(). -/
def SelfTester.start (now : Nat) (st : SelfTester) : SelfTester :=
  if st.active then st
  else { st with active := true, step := 0, next := u32 now }

/-- SelfTester::stop — no-op when inactive, else clear the active flag. -/
def SelfTester.stop (st : SelfTester) : SelfTester :=
  if st.active = false then st
  else { st with active := false }

/-- SelfTester::step — the guards, the (as-written) `overshoot =
next_step_timestamp_ - now` in unsigned arithmetic, the application of the
current target to the actuator state, and the rescheduling
`next_step_timestamp_ = now + target.wait_ms - overshoot`. -/
def SelfTester.stepRun (now : Nat) (st : SelfTester) (s : ActState) :
    SelfTester × ActState × Bool :=
  if st.active = false then (st, s, false)
  else if st.targets.length ≤ st.step then (st.stop, s, false)
  else
    let nowu := u32 now
    if nowu < st.next then (st, s, false)
    else
      let overshoot := u32sub st.next nowu
      let t := st.targets.getD st.step Target.zero
      let s' : ActState :=
        { s with red := s.red.set t.red, yellow := s.yellow.set t.yellow,
                 green := s.green.set t.green, servo := s.servo.set t.servo }
      ({ st with next := u32sub (u32 (nowu + intToU32 t.wait_ms)) overshoot,
                 step := st.step + 1 },
       s', true)

/-- Request::Status. -/
inductive RStatus where
  | ok
  | badSyntax
deriving DecidableEq, Repr

/-- Request::Verb. -/
inductive RVerb where
  | empty
  | invalid
  | id
  | get
  | set
deriving DecidableEq, Repr

/-- Request::Noun. -/
inductive RNoun where
  | empty
  | invalid
  | redLed
  | yellowLed
  | greenLed
  | servo
  | tempAndHum
  | selfTest
deriving DecidableEq, Repr

/-- Request::Value. -/
inductive RValue where
  | empty
  | invalid
  | ok
deriving DecidableEq, Repr

/-- Request struct. -/
structure Request where
  status : RStatus
  verb : RVerb
  noun : RNoun
  value : RValue
  value_int : Int
deriving DecidableEq, Repr

/-- Request() constructor. -/
def Request.init : Request :=
  ⟨RStatus.ok, RVerb.empty, RNoun.empty, RValue.empty, 0⟩

/-- One strtok call with delimiter set `delims`: skip leading delimiters,
return the maximal delimiter-free token and the remainder after the
delimiter that terminated it (`none` when only delimiters remain). -/
def strtokStep (delims : List Char) (s : List Char) : Option (List Char × List Char) :=
  let s1 := s.dropWhile (fun c => delims.contains c)
  match s1 with
  | [] => none
  | _ =>
    let tok := s1.takeWhile (fun c => !delims.contains c)
    let rest0 := s1.dropWhile (fun c => !delims.contains c)
    some (tok, rest0.drop 1)

/-- C `isspace` for the default locale. -/
def isSpaceC (c : Char) : Bool :=
  c = ' ' || c = '\t' || c = '\n' || c = '\x0b' || c = '\x0c' || c = '\r'

/-- Numeric value of a run of decimal digits. -/
def digitsVal (ds : List Char) : Nat :=
  ds.foldl (fun a c => 10 * a + (c.toNat - 48)) 0

/-- LONG_MAX on the 32-bit target. -/
def LONG_MAX : Int := 2147483647

/-- LONG_MIN on the 32-bit target. -/
def LONG_MIN : Int := -2147483648

/-- strtol(s, end, 10): `none` when no digits could be converted (then the
code's `pch == value_end` test fires and strtol returned 0), otherwise the
converted value, saturated at LONG_MIN/LONG_MAX. -/
def strtol10 (s : List Char) : Option Int :=
  let s1 := s.dropWhile isSpaceC
  let p : Bool × List Char :=
    match s1 with
    | '-' :: t => (true, t)
    | '+' :: t => (false, t)
    | _ => (false, s1)
  let ds := p.2.takeWhile (fun c => c.isDigit)
  if ds = [] then none
  else
    let m : Int := Int.ofNat (digitsVal ds)
    let v : Int := if p.1 then -m else m
    some (if v > LONG_MAX then LONG_MAX else if v < LONG_MIN then LONG_MIN else v)

/-- VERB_MAP lookup. -/
def verbMap (t : List Char) : Option RVerb :=
  if t = "ID".toList then some RVerb.id
  else if t = "GET".toList then some RVerb.get
  else if t = "SET".toList then some RVerb.set
  else none

/-- NOUN_MAP lookup. -/
def nounMap (t : List Char) : Option RNoun :=
  if t = "RED_LED".toList then some RNoun.redLed
  else if t = "YELLOW_LED".toList then some RNoun.yellowLed
  else if t = "GREEN_LED".toList then some RNoun.greenLed
  else if t = "SERVO".toList then some RNoun.servo
  else if t = "TEMP_AND_HUM".toList then some RNoun.tempAndHum
  else if t = "SELF_TEST".toList then some RNoun.selfTest
  else none

/-- Diagnostic line printed by parse_into when the noun lookup fails. -/
def nounFailLine (t : List Char) : String :=
  "Failed to find noun [" ++ (String.mk t ++ "]")

/-- RequestParser::parse_into, after the pending check: the staged strtok
tokenization of the completed line, writing into the caller's Request `r0`
exactly the fields the code assigns before each early return.  The second
component is the Serial output produced while parsing. -/
def parseLine (line : List Char) (r0 : Request) : Request × List String :=
  match strtokStep [' ', '\n'] line with
  | none => ({ r0 with verb := RVerb.empty }, [])
  | some (t1, rest1) =>
    match verbMap t1 with
    | none => ({ r0 with verb := RVerb.invalid }, [])
    | some v =>
      let r1 := { r0 with verb := v }
      match strtokStep [' ', '\r', '\n'] rest1 with
      | none => ({ r1 with noun := RNoun.empty }, [])
      | some (t2, rest2) =>
        match nounMap t2 with
        | none => ({ r1 with noun := RNoun.invalid }, [nounFailLine t2])
        | some n =>
          let r2 := { r1 with noun := n }
          match strtokStep [' ', '\r', '\n'] rest2 with
          | none => ({ r2 with value := RValue.empty }, [])
          | some (t3, rest3) =>
            match strtol10 t3 with
            | none => ({ r2 with value := RValue.invalid, value_int := 0 }, [])
            | some v3 =>
              let r3 := { r2 with value := RValue.ok, value_int := v3 }
              match strtokStep ['\r', '\n'] rest3 with
              | some _ => ({ r3 with value := RValue.empty }, [])
              | none => (r3, [])

/-- RequestParser<MAX_LEN>'s fields: `buffer_`, `bufferp_`, `pending_request_`.
The buffer is a fixed-length list; its length plays the role of MAX_LEN. -/
structure ParserState where
  buf : List Char
  bufferp : Nat
  pending : Bool
deriving DecidableEq, Repr

/-- Bounds-checked store `buffer_[i] = c`; `none` models a write past the
fixed-size array (undefined behaviour in the source). -/
def writeBuf (buf : List Char) (i : Nat) (c : Char) : Option (List Char) :=
  if i < buf.length then some (buf.set i c) else none

/-- RequestParser::available — `!pending() && bufferp_ < (sizeof(buffer_) - 1)`. -/
def ParserState.available (maxLen : Nat) (s : ParserState) : Bool :=
  !s.pending && decide (s.bufferp < maxLen - 1)

/-- RequestParser::push. -/
def ParserState.push (maxLen : Nat) (s : ParserState) (c : Char) : Option ParserState :=
  if s.available maxLen then
    match writeBuf s.buf s.bufferp c with
    | none => none
    | some buf1 =>
      if c = '\n' || s.bufferp + 1 = maxLen - 1 then
        match writeBuf buf1 (s.bufferp + 1) '\x00' with
        | none => none
        | some buf2 => some ⟨buf2, 0, true⟩
      else some ⟨buf1, s.bufferp + 1, s.pending⟩
  else some s

/-- RequestParser::parse_into at the object level: returns whether a line was
consumed, the parser state afterwards, the updated Request, and the Serial
output produced while parsing. -/
def ParserState.parse_into (s : ParserState) (r : Request) :
    Bool × ParserState × Request × List String :=
  if s.pending then
    let line := s.buf.takeWhile (fun c => c != '\x00')
    let pr := parseLine line r
    (true, { s with pending := false }, pr.1, pr.2)
  else (false, s, r, [])

/-- States of RequestParser<256> reachable from a freshly constructed parser
(arbitrary initial buffer contents, as the member array is uninitialized)
by any interleaving of push and parse_into. -/
inductive Reachable (maxLen : Nat) : ParserState → Prop
  | base (buf : List Char) : buf.length = maxLen → Reachable maxLen ⟨buf, 0, false⟩
  | push (c : Char) (s s' : ParserState) :
      Reachable maxLen s → ParserState.push maxLen s c = some s' → Reachable maxLen s'
  | parse (r : Request) (s : ParserState) :
      Reachable maxLen s → Reachable maxLen (ParserState.parse_into s r).2.1

/-- ARDUINO_BOARD identity constant for the Wemos D1 mini build. -/
def ARDUINO_BOARD : String := "ESP8266_WEMOS_D1MINI"

/-- The shared mutable globals touched by handle_request: `state` and
`self_tester`. -/
structure Globals where
  state : ActState
  tester : SelfTester
deriving DecidableEq, Repr

/-- The five self-test targets constructed for `self_tester` (DEF/MIN/MAX of
the LED and servo ClampedInts, each with a 500 ms dwell). -/
def programTargets : List Target :=
  [⟨0, 0, 0, 90, 500⟩,
   ⟨1023, 0, 0, 0, 500⟩,
   ⟨0, 1023, 0, 90, 500⟩,
   ⟨0, 0, 1023, 180, 500⟩,
   ⟨0, 0, 0, 90, 500⟩]

/-- Globals as statically constructed (before `setup()` runs). -/
def g0 : Globals :=
  ⟨ActState.init, ⟨programTargets, false, 0, 0⟩⟩

/-- handle_request: one Serial response line per branch of the decision
table, plus the state mutation of the SET branches.  `now` stands for the
millis() reading consumed by SelfTester::start. -/
def handle_request (now : Nat) (r : Request) (g : Globals) : List String × Globals :=
  if r.status = RStatus.badSyntax then (["ERR BAD_SYNTAX"], g)
  else if r.verb = RVerb.empty ∨ r.verb = RVerb.invalid then (["ERR BAD_VERB"], g)
  else
    match r.verb with
    | RVerb.id =>
      if r.noun ≠ RNoun.empty then (["ERR BAD_NOUN"], g)
      else (["OK " ++ ARDUINO_BOARD], g)
    | RVerb.get =>
      if r.value ≠ RValue.empty then (["ERR BAD_VALUE"], g)
      else
        match r.noun with
        | RNoun.redLed => (["OK " ++ toString g.state.red.get], g)
        | RNoun.yellowLed => (["OK " ++ toString g.state.yellow.get], g)
        | RNoun.greenLed => (["OK " ++ toString g.state.green.get], g)
        | RNoun.servo => (["OK " ++ toString g.state.servo.get], g)
        | RNoun.tempAndHum =>
          (["OK " ++ (g.state.sensor.status ++ (" " ++
             (g.state.sensor.temperature ++ (" " ++ g.state.sensor.humidity))))], g)
        | RNoun.selfTest =>
          (["OK " ++ ((if g.tester.is_active then "ACTIVE" else "INACTIVE") ++
             (" " ++ toString g.tester.progress))], g)
        | _ => (["ERR BAD_NOUN"], g)
    | RVerb.set =>
      if r.value ≠ RValue.ok then (["ERR BAD_VALUE"], g)
      else
        match r.noun with
        | RNoun.redLed =>
          let st := { g.state with red := g.state.red.set r.value_int }
          (["OK " ++ toString st.red.get], { g with state := st })
        | RNoun.yellowLed =>
          let st := { g.state with yellow := g.state.yellow.set r.value_int }
          (["OK " ++ toString st.yellow.get], { g with state := st })
        | RNoun.greenLed =>
          let st := { g.state with green := g.state.green.set r.value_int }
          (["OK " ++ toString st.green.get], { g with state := st })
        | RNoun.servo =>
          let st := { g.state with servo := g.state.servo.set r.value_int }
          (["OK " ++ toString st.servo.get], { g with state := st })
        | RNoun.selfTest =>
          if r.value_int < 0 ∨ r.value_int > 1 then (["ERR BAD_VALUE"], g)
          else
            let t' := if r.value_int ≠ 0 then g.tester.start now else g.tester.stop
            (["OK " ++ ((if t'.is_active then "ACTIVE" else "INACTIVE") ++
               (" " ++ toString t'.progress))], { g with tester := t' })
        | _ => (["ERR BAD_NOUN"], g)
    | _ => (["ERR BAD_VERB"], g)

/-- Processing of one completed line, as done by `loop` once parse_into
returns true: tokenize into the (reused) Request, then dispatch.  The first
component collects all Serial lines in emission order. -/
def processLine (now : Nat) (line : List Char) (r : Request) (g : Globals) :
    List String × Request × Globals :=
  let pr := parseLine line r
  let hr := handle_request now pr.1 g
  (pr.2 ++ hr.1, pr.1, hr.2)

/-! Concrete states and runs used by counterexamples and witnesses. -/

/-- Self-test run: start at t=0, then five `step` calls, each exactly on its
deadline (so the drift term is zero and both overshoot conventions agree). -/
def c2s0 : SelfTester := SelfTester.start 0 ⟨programTargets, false, 0, 0⟩

/-- First tick of the run, at t=0. -/
def c2q1 := SelfTester.stepRun 0 c2s0 ActState.init

/-- Second tick of the run, at t=500. -/
def c2q2 := SelfTester.stepRun 500 c2q1.1 c2q1.2.1

/-- Third tick of the run, at t=1000. -/
def c2q3 := SelfTester.stepRun 1000 c2q2.1 c2q2.2.1

/-- Fourth tick of the run, at t=1500. -/
def c2q4 := SelfTester.stepRun 1500 c2q3.1 c2q3.2.1

/-- Fifth tick of the run, at t=2000: the last target executes. -/
def c2q5 := SelfTester.stepRun 2000 c2q4.1 c2q4.2.1

/-- A freshly constructed RequestParser<256> with blank buffer contents. -/
def parserInit : ParserState := ⟨List.replicate 256 ' ', 0, false⟩

/-- A parser state holding a completed line awaiting dispatch. -/
def parserPendingSt : ParserState := ⟨List.replicate 256 ' ', 0, true⟩

/-- A parser state whose write cursor sits on the last free slot. -/
def parserAlmostFull : ParserState := ⟨List.replicate 256 ' ', 254, false⟩

/-- An inactive sequencer sample. -/
def testerIdle : SelfTester := ⟨programTargets, false, 3, 700⟩

/-- An active sequencer sample. -/
def testerBusy : SelfTester := ⟨programTargets, true, 3, 700⟩

/-- A GET SELF_TEST request as the parser produces it from a fresh Request. -/
def getSelfTestReq : Request :=
  ⟨RStatus.ok, RVerb.get, RNoun.selfTest, RValue.empty, 0⟩

/-- The statically constructed `self_tester` before `setup()` runs. -/
def testerInit : SelfTester := ⟨programTargets, false, 0, 0⟩

/-- A sequencer that has just executed its final target: step index at the
list length with the active flag still set. -/
def testerDone : SelfTester := ⟨programTargets, true, 5, 0⟩

/-- Sequencer states reachable from a freshly constructed SelfTester by any
interleaving of start, stop and step calls. -/
inductive ReachableT : SelfTester → Prop
  | base (ts : List Target) : ReachableT ⟨ts, false, 0, 0⟩
  | start (now : Nat) {st : SelfTester} : ReachableT st → ReachableT (st.start now)
  | stop {st : SelfTester} : ReachableT st → ReachableT st.stop
  | step (now : Nat) (s : ActState) {st : SelfTester} :
      ReachableT st → ReachableT (SelfTester.stepRun now st s).1

/-- Parser buffer invariant for RequestParser<256>: full-capacity buffer and
write cursor strictly below the reserved terminator slot. -/
def PInv (s : ParserState) : Prop :=
  s.buf.length = 256 ∧ s.bufferp < 255

/-! Theorems. -/

/-- C1: when a due step executes, the code computes `overshoot =
next_step_timestamp_ - now` (operands swapped with respect to the claimed
`now - next_deadline`), so with old deadline 100, wait 500 and now = 103 the
new deadline is 606 = now + wait + lateness instead of the claimed
old + wait = 600: the reschedule amplifies scheduling drift rather than
compensating it. -/
theorem selfTester_step_overshoot_swapped :
    ((SelfTester.stepRun 103 ⟨[⟨1, 2, 3, 4, 500⟩], true, 0, 100⟩ ActState.init).1.next = 606)
    ∧ ((SelfTester.stepRun 103 ⟨[⟨1, 2, 3, 4, 500⟩], true, 0, 100⟩ ActState.init).1.next
        ≠ 100 + 500) := by
  decide

/-- C3: parse_into does not rebuild the Request afresh — parsing "GET\n"
after "SET RED_LED 5\n" into the same (static) Request leaves the stale
value field VALUE_OK, so the fields do not depend only on the line's text:
the same line parsed from a fresh Request gives VALUE_EMPTY, and dispatch
answers ERR BAD_VALUE instead of the ERR BAD_NOUN a fresh Request yields. -/
theorem request_stale_value_reused :
    ((parseLine "GET\n".toList (parseLine "SET RED_LED 5\n".toList Request.init).1).1.value
      = RValue.ok)
    ∧ ((parseLine "GET\n".toList Request.init).1.value = RValue.empty)
    ∧ ((parseLine "GET\n".toList (parseLine "SET RED_LED 5\n".toList Request.init).1).1.value
        ≠ (parseLine "GET\n".toList Request.init).1.value)
    ∧ ((handle_request 0
          (parseLine "GET\n".toList (parseLine "SET RED_LED 5\n".toList Request.init).1).1
          g0).1 = ["ERR BAD_VALUE"])
    ∧ ((handle_request 0 (parseLine "GET\n".toList Request.init).1 g0).1
        = ["ERR BAD_NOUN"]) := by
  decide

/-- C2 counterexample: with the program's five targets, after start at t=0
and five on-deadline step calls the sequencer still reports ACTIVE with
progress 100, exceeding the claimed bound 100*(n-1)/n = 80; it only goes
inactive on the next step call. -/
theorem selfTest_active_progress_100 :
    c2q5.1.active = true ∧ c2q5.1.progress = 100
    ∧ 100 * (programTargets.length - 1) / programTargets.length = 80
    ∧ ¬(c2q5.1.progress ≤ 100 * (programTargets.length - 1) / programTargets.length) := by
  decide

/-- C4 counterexample: the token "12abc" is not a signed decimal integer,
yet parse_into classifies the value as VALUE_OK with value_int = 12, because
strtol accepts the integer prefix and only `pch == value_end` (no digits at
all) yields VALUE_INVALID. -/
theorem parse_value_prefix_cex :
    ((parseLine "SET SERVO 12abc\n".toList Request.init).1.value = RValue.ok)
    ∧ ((parseLine "SET SERVO 12abc\n".toList Request.init).1.value ≠ RValue.invalid)
    ∧ ((parseLine "SET SERVO 12abc\n".toList Request.init).1.value_int = 12) := by
  decide

/-- C6 counterexample: processing the completed line "GET FOO\n" emits two
Serial lines — the parser's noun-lookup diagnostic and then the response —
so parse plus dispatch is not limited to exactly one output line. -/
theorem processLine_two_output_lines :
    ((processLine 0 "GET FOO\n".toList Request.init g0).1
      = ["Failed to find noun [FOO]", "ERR BAD_NOUN"])
    ∧ ((processLine 0 "GET FOO\n".toList Request.init g0).1.length ≠ 1) := by
  decide

/-- C10: start is idempotent (a second start in a row is absorbed, and start
on an active sequencer changes nothing, so no mid-run re-reset of step or
deadline), stop on an inactive sequencer is a no-op, and stop only clears
the active flag, leaving step, deadline and targets untouched. -/
theorem selfTester_start_stop_idempotent (now1 now2 : Nat) (st : SelfTester) :
    (SelfTester.start now2 (SelfTester.start now1 st) = SelfTester.start now1 st)
    ∧ (st.active = true → SelfTester.start now1 st = st)
    ∧ (st.active = false → SelfTester.stop st = st)
    ∧ ((SelfTester.stop st).active = false
       ∧ (SelfTester.stop st).step = st.step
       ∧ (SelfTester.stop st).next = st.next
       ∧ (SelfTester.stop st).targets = st.targets) := by
  obtain ⟨ts, a, k, n⟩ := st
  cases a <;> simp [SelfTester.start, SelfTester.stop]

/-- C10 witness: the idempotence laws evaluated on concrete sequencer
states, one inactive and one active. -/
theorem selfTester_start_stop_idempotent_witness :
    (SelfTester.start 5 (SelfTester.start 3 testerIdle) = SelfTester.start 3 testerIdle)
    ∧ (SelfTester.start 3 testerBusy = testerBusy)
    ∧ (SelfTester.stop testerIdle = testerIdle)
    ∧ ((SelfTester.stop testerBusy).active = false
       ∧ (SelfTester.stop testerBusy).step = testerBusy.step) :=
  ⟨(selfTester_start_stop_idempotent 3 5 testerIdle).1,
   (selfTester_start_stop_idempotent 3 5 testerBusy).2.1 rfl,
   (selfTester_start_stop_idempotent 3 5 testerIdle).2.2.1 rfl,
   (selfTester_start_stop_idempotent 3 5 testerBusy).2.2.2.1,
   (selfTester_start_stop_idempotent 3 5 testerBusy).2.2.2.2.1⟩

/-- Helper: the clamp lands inside the range whenever the range is sane. -/
theorem clamped_mem (minV maxV x : Int) (h : minV ≤ maxV) :
    minV ≤ clamped minV maxV x ∧ clamped minV maxV x ≤ maxV := by
  unfold clamped
  split
  · exact ⟨h, le_rfl⟩
  · split
    · exact ⟨le_rfl, h⟩
    · omega

/-- Helper: the clamp is the identity on in-range inputs. -/
theorem clamped_id (minV maxV x : Int) (h1 : minV ≤ x) (h2 : x ≤ maxV) :
    clamped minV maxV x = x := by
  unfold clamped
  split
  · omega
  · split <;> omega

/-- C7: ClampedInt confines every constructed or set value to [min, max],
acts as the identity in range, clamps to the hit bound out of range, default
construction yields the default (in range when the instantiation's default
is), and the three documented SET exchanges answer OK 1023 / OK 0 / OK 90. -/
theorem clampedInt_invariant (minV maxV defV x y : Int)
    (c : ClampedInt minV maxV defV)
    (hmm : minV ≤ maxV) (hd1 : minV ≤ defV) (hd2 : defV ≤ maxV) :
    ((ClampedInt.ofVal x : ClampedInt minV maxV defV).val = clamped minV maxV x
      ∧ minV ≤ (ClampedInt.ofVal x : ClampedInt minV maxV defV).val
      ∧ (ClampedInt.ofVal x : ClampedInt minV maxV defV).val ≤ maxV)
    ∧ (minV ≤ x → x ≤ maxV → (ClampedInt.ofVal x : ClampedInt minV maxV defV).val = x)
    ∧ (maxV < x → (ClampedInt.ofVal x : ClampedInt minV maxV defV).val = maxV)
    ∧ (x < minV → (ClampedInt.ofVal x : ClampedInt minV maxV defV).val = minV)
    ∧ ((ClampedInt.ofDefault : ClampedInt minV maxV defV).val = defV
      ∧ minV ≤ (ClampedInt.ofDefault : ClampedInt minV maxV defV).val
      ∧ (ClampedInt.ofDefault : ClampedInt minV maxV defV).val ≤ maxV)
    ∧ (minV ≤ (c.set y).val ∧ (c.set y).val ≤ maxV)
    ∧ ((handle_request 0 (parseLine "SET RED_LED 2000\n".toList Request.init).1 g0).1
        = ["OK 1023"])
    ∧ ((handle_request 0 (parseLine "SET RED_LED -100\n".toList Request.init).1 g0).1
        = ["OK 0"])
    ∧ ((handle_request 0 (parseLine "SET SERVO 90\n".toList Request.init).1 g0).1
        = ["OK 90"]) := by
  refine ⟨⟨rfl, (clamped_mem minV maxV x hmm).1, (clamped_mem minV maxV x hmm).2⟩,
    ?_, ?_, ?_, ⟨rfl, hd1, hd2⟩,
    ⟨(clamped_mem minV maxV y hmm).1, (clamped_mem minV maxV y hmm).2⟩,
    by decide, by decide, by decide⟩
  · intro h1 h2
    exact clamped_id minV maxV x h1 h2
  · intro h
    show clamped minV maxV x = maxV
    unfold clamped
    split <;> omega
  · intro h
    show clamped minV maxV x = minV
    unfold clamped
    split <;> omega

/-- C7 witness: the theorem instantiated at the LedValue bounds (0, 1023,
default 0) and the inputs of the documented exchanges. -/
theorem clampedInt_invariant_witness :
    ((ClampedInt.ofVal 2000 : LedValue).val = clamped 0 1023 2000
      ∧ 0 ≤ (ClampedInt.ofVal 2000 : LedValue).val
      ∧ (ClampedInt.ofVal 2000 : LedValue).val ≤ 1023)
    ∧ ((ClampedInt.ofVal 500 : LedValue).val = 500)
    ∧ ((ClampedInt.ofVal 2000 : LedValue).val = 1023)
    ∧ ((ClampedInt.ofVal (-100) : LedValue).val = 0)
    ∧ ((handle_request 0 (parseLine "SET SERVO 90\n".toList Request.init).1 g0).1
        = ["OK 90"]) :=
  ⟨(clampedInt_invariant 0 1023 0 2000 7 ⟨3⟩ (by decide) (by decide) (by decide)).1,
   (clampedInt_invariant 0 1023 0 500 7 ⟨3⟩ (by decide) (by decide) (by decide)).2.1
     (by decide) (by decide),
   (clampedInt_invariant 0 1023 0 2000 7 ⟨3⟩ (by decide) (by decide) (by decide)).2.2.1
     (by decide),
   (clampedInt_invariant 0 1023 0 (-100) 7 ⟨3⟩ (by decide) (by decide) (by decide)).2.2.2.1
     (by decide),
   (clampedInt_invariant 0 1023 0 0 7 ⟨3⟩ (by decide) (by decide)
     (by decide)).2.2.2.2.2.2.2.2⟩

/-- C5: whenever a further token follows a successfully parsed integer value
(verb and noun recognized, third token converted by strtol, fourth strtok
call non-NULL), parse_into forces the value field back to VALUE_EMPTY, and a
SET request built from such a line is answered ERR BAD_VALUE. -/
theorem parse_trailing_token_erases_value
    (now : Nat) (g : Globals) (line : List Char) (r0 : Request)
    (t1 rest1 t2 rest2 t3 rest3 t4 rest4 : List Char) (v : RVerb) (n : RNoun) (v3 : Int)
    (hst : r0.status = RStatus.ok)
    (h1 : strtokStep [' ', '\n'] line = some (t1, rest1))
    (hv : verbMap t1 = some v)
    (h2 : strtokStep [' ', '\r', '\n'] rest1 = some (t2, rest2))
    (hn : nounMap t2 = some n)
    (h3 : strtokStep [' ', '\r', '\n'] rest2 = some (t3, rest3))
    (hs : strtol10 t3 = some v3)
    (h4 : strtokStep ['\r', '\n'] rest3 = some (t4, rest4)) :
    ((parseLine line r0).1.value = RValue.empty)
    ∧ (v = RVerb.set →
        (handle_request now (parseLine line r0).1 g).1 = ["ERR BAD_VALUE"]) := by
  have hp : (parseLine line r0).1
      = { r0 with verb := v, noun := n, value := RValue.empty, value_int := v3 } := by
    simp [parseLine, h1, hv, h2, hn, h3, hs, h4]
  refine ⟨by rw [hp], ?_⟩
  intro hvs
  subst hvs
  rw [hp]
  simp [handle_request, hst]

/-- C5 witness: the quirk on the concrete line "SET RED_LED 5 x\n". -/
theorem parse_trailing_token_erases_value_witness :
    ((parseLine "SET RED_LED 5 x\n".toList Request.init).1.value = RValue.empty)
    ∧ ((handle_request 0 (parseLine "SET RED_LED 5 x\n".toList Request.init).1 g0).1
        = ["ERR BAD_VALUE"]) :=
  ⟨(parse_trailing_token_erases_value 0 g0 "SET RED_LED 5 x\n".toList Request.init
      "SET".toList "RED_LED 5 x\n".toList "RED_LED".toList "5 x\n".toList
      "5".toList "x\n".toList "x".toList [] RVerb.set RNoun.redLed 5
      rfl (by decide) (by decide) (by decide) (by decide) (by decide) (by decide)
      (by decide)).1,
   (parse_trailing_token_erases_value 0 g0 "SET RED_LED 5 x\n".toList Request.init
      "SET".toList "RED_LED 5 x\n".toList "RED_LED".toList "5 x\n".toList
      "5".toList "x\n".toList "x".toList [] RVerb.set RNoun.redLed 5
      rfl (by decide) (by decide) (by decide) (by decide) (by decide) (by decide)
      (by decide)).2 rfl⟩

/-- C4 amended: with verb and noun recognized and a third token present,
parse_into classifies the value as VALUE_INVALID exactly when strtol
converts no digits at all; when strtol converts an integer (prefix),
value_int receives that value (so a token like "12abc" yields VALUE_OK with
value 12 rather than VALUE_INVALID). -/
theorem parse_value_classification
    (line : List Char) (r0 : Request)
    (t1 rest1 t2 rest2 t3 rest3 : List Char) (v : RVerb) (n : RNoun)
    (h1 : strtokStep [' ', '\n'] line = some (t1, rest1))
    (hv : verbMap t1 = some v)
    (h2 : strtokStep [' ', '\r', '\n'] rest1 = some (t2, rest2))
    (hn : nounMap t2 = some n)
    (h3 : strtokStep [' ', '\r', '\n'] rest2 = some (t3, rest3)) :
    (((parseLine line r0).1.value = RValue.invalid) ↔ strtol10 t3 = none)
    ∧ (∀ v3 : Int, strtol10 t3 = some v3 → (parseLine line r0).1.value_int = v3) := by
  cases hs : strtol10 t3 with
  | none =>
    have hp : (parseLine line r0).1
        = { r0 with verb := v, noun := n, value := RValue.invalid, value_int := 0 } := by
      simp [parseLine, h1, hv, h2, hn, h3, hs]
    refine ⟨by rw [hp]; simp, ?_⟩
    intro v3 hv3
    cases hv3
  | some w =>
    cases h4 : strtokStep ['\r', '\n'] rest3 with
    | none =>
      have hp : (parseLine line r0).1
          = { r0 with verb := v, noun := n, value := RValue.ok, value_int := w } := by
        simp [parseLine, h1, hv, h2, hn, h3, hs, h4]
      refine ⟨by rw [hp]; simp, ?_⟩
      intro v3 hv3
      cases hv3
      rw [hp]
    | some q =>
      have hp : (parseLine line r0).1
          = { r0 with verb := v, noun := n, value := RValue.empty, value_int := w } := by
        simp [parseLine, h1, hv, h2, hn, h3, hs, h4]
      refine ⟨by rw [hp]; simp, ?_⟩
      intro v3 hv3
      cases hv3
      rw [hp]

/-- C4 witness: the classification applied to "SET SERVO 12abc\n", whose
third token has the integer prefix 12. -/
theorem parse_value_classification_witness :
    (((parseLine "SET SERVO 12abc\n".toList Request.init).1.value = RValue.invalid)
      ↔ strtol10 "12abc".toList = none)
    ∧ ((parseLine "SET SERVO 12abc\n".toList Request.init).1.value_int = 12) :=
  ⟨(parse_value_classification "SET SERVO 12abc\n".toList Request.init
      "SET".toList "SERVO 12abc\n".toList "SERVO".toList "12abc\n".toList
      "12abc".toList [] RVerb.set RNoun.servo
      (by decide) (by decide) (by decide) (by decide) (by decide)).1,
   (parse_value_classification "SET SERVO 12abc\n".toList Request.init
      "SET".toList "SERVO 12abc\n".toList "SERVO".toList "12abc\n".toList
      "12abc".toList [] RVerb.set RNoun.servo
      (by decide) (by decide) (by decide) (by decide) (by decide)).2 12 (by decide)⟩

/-- Helper: parse_into never writes the status field. -/
theorem parseLine_status (line : List Char) (r : Request) :
    ((parseLine line r).1).status = r.status := by
  unfold parseLine
  repeat' split
  all_goals rfl

/-- Helper: a line printed as "OK " followed by anything differs from the
ERR BAD_SYNTAX response. -/
theorem ok_line_ne_badsyntax_resp (t : String) : "ERR BAD_SYNTAX" ≠ "OK " ++ t := by
  intro h
  have hd : "ERR BAD_SYNTAX".data = 'O' :: 'K' :: ' ' :: t.data := congrArg String.data h
  simp at hd

/-- C9: parse_into preserves the status field over any sequence of parsed
lines, the loop's static Request starts with STATUS_OK, so the status stays
STATUS_OK forever, and handle_request never emits ERR BAD_SYNTAX on a
request whose status is STATUS_OK — the branch is unreachable. -/
theorem badSyntax_branch_unreachable
    (ls : List (List Char)) (line : List Char) (r : Request) (now : Nat) (g : Globals) :
    (((parseLine line r).1).status = r.status)
    ∧ (Request.init.status = RStatus.ok)
    ∧ ((ls.foldl (fun a l0 => (parseLine l0 a).1) Request.init).status = RStatus.ok)
    ∧ (r.status = RStatus.ok → "ERR BAD_SYNTAX" ∉ (handle_request now r g).1) := by
  refine ⟨parseLine_status line r, rfl, ?_, ?_⟩
  · have key : ∀ (ms : List (List Char)) (a : Request), a.status = RStatus.ok →
        (ms.foldl (fun a l0 => (parseLine l0 a).1) a).status = RStatus.ok := by
      intro ms
      induction ms with
      | nil => intro a ha; simpa using ha
      | cons m t ih =>
        intro a ha
        simp only [List.foldl_cons]
        exact ih _ ((parseLine_status m a).trans ha)
    exact key ls Request.init rfl
  · intro hst
    obtain ⟨stt, vb, nn, vl, vi⟩ := r
    simp only at hst
    subst hst
    cases vb <;> cases nn <;> cases vl <;>
      simp [handle_request] <;>
      first
        | decide
        | exact ok_line_ne_badsyntax_resp _
        | (split <;> first | (simp; exact ok_line_ne_badsyntax_resp _) | simp)

/-- C9 witness: the status-preservation and unreachability facts evaluated
on a concrete parsed sequence and a fresh Request. -/
theorem badSyntax_branch_unreachable_witness :
    ((["ID\n".toList, "GET RED_LED\n".toList].foldl
        (fun a l0 => (parseLine l0 a).1) Request.init).status = RStatus.ok)
    ∧ ("ERR BAD_SYNTAX" ∉ (handle_request 0 Request.init g0).1) :=
  ⟨(badSyntax_branch_unreachable ["ID\n".toList, "GET RED_LED\n".toList]
      "ID\n".toList Request.init 0 g0).2.2.1,
   (badSyntax_branch_unreachable [] "ID\n".toList Request.init 0 g0).2.2.2 rfl⟩

/-- C6 amended: handle_request is total and every branch emits exactly one
line, prefixed OK or ERR; parsing itself can additionally emit at most one
diagnostic line (the failed noun lookup), so parse plus dispatch emits the
single response line plus at most one extra line. -/
theorem dispatch_single_response_line (now : Nat) (r : Request) (g : Globals) :
    ((handle_request now r g).1.length = 1)
    ∧ (∀ l ∈ (handle_request now r g).1, ∃ t : String, l = "OK " ++ t ∨ l = "ERR " ++ t)
    ∧ (∀ (line : List Char) (r0 : Request), ((parseLine line r0).2).length ≤ 1) := by
  obtain ⟨stt, vb, nn, vl, vi⟩ := r
  refine ⟨?_, ?_, ?_⟩
  · cases stt <;> cases vb <;> cases nn <;> cases vl <;>
      (simp [handle_request]; try (split <;> simp))
  · cases stt <;> cases vb <;> cases nn <;> cases vl <;>
      simp [handle_request] <;>
      first
        | exact ⟨_, Or.inl rfl⟩
        | exact ⟨"BAD_SYNTAX", Or.inr (by decide)⟩
        | exact ⟨"BAD_VERB", Or.inr (by decide)⟩
        | exact ⟨"BAD_NOUN", Or.inr (by decide)⟩
        | exact ⟨"BAD_VALUE", Or.inr (by decide)⟩
        | (split <;>
            (simp;
              first
                | exact ⟨_, Or.inl rfl⟩
                | exact ⟨"BAD_VALUE", Or.inr (by decide)⟩))
  · intro line r0
    unfold parseLine
    repeat' split
    all_goals simp

/-- C6 witness: the shape facts evaluated on a concrete request and line. -/
theorem dispatch_single_response_line_witness :
    ((handle_request 0 Request.init g0).1.length = 1)
    ∧ (∃ t : String, "ERR BAD_VERB" = "OK " ++ t ∨ "ERR BAD_VERB" = "ERR " ++ t)
    ∧ ((parseLine "GET FOO\n".toList Request.init).2.length ≤ 1) :=
  ⟨(dispatch_single_response_line 0 Request.init g0).1,
   (dispatch_single_response_line 0 Request.init g0).2.1 "ERR BAD_VERB" (by decide),
   (dispatch_single_response_line 0 Request.init g0).2.2 "GET FOO\n".toList Request.init⟩

/-- Helper: an ACTIVE self-test response line never equals "OK INACTIVE 100",
whatever the printed progress. -/
theorem active_line_ne (t : String) :
    "OK " ++ ("ACTIVE" ++ (" " ++ t)) ≠ "OK INACTIVE 100" := by
  intro h
  have hd : 'O' :: 'K' :: ' ' :: 'A' :: 'C' :: 'T' :: 'I' :: 'V' :: 'E' :: ' ' :: t.data
      = "OK INACTIVE 100".data := congrArg String.data h
  simp at hd

/-- Helper: the step index never exceeds the target-list length on any
reachable sequencer state. -/
theorem reachableT_step_le (st : SelfTester) (h : ReachableT st) :
    st.step ≤ st.targets.length := by
  induction h with
  | base ts => simp
  | start now h ih =>
    unfold SelfTester.start
    split
    · exact ih
    · simp
  | stop h ih =>
    unfold SelfTester.stop
    split
    · exact ih
    · simpa using ih
  | step now s h ih =>
    simp only [SelfTester.stepRun]
    split
    · exact ih
    · split
      · unfold SelfTester.stop
        split
        · exact ih
        · simpa using ih
      · split
        · exact ih
        · simp
          omega

/-- C2 amended: a GET SELF_TEST dispatch never answers "OK INACTIVE 100"
(progress reads 0 whenever inactive), the step index never exceeds the
number of targets, and once the step index has reached the target count the
next step call clears the active flag — but the auto-stop happens one call
late, so while still active the reported progress can reach 100 (see the
counterexample run) rather than staying below 100*(n-1)/n. -/
theorem selfTest_completion_amended (now : Nat) (g : Globals) (r : Request)
    (st : SelfTester) (s : ActState) :
    (r.verb = RVerb.get → r.noun = RNoun.selfTest →
      (handle_request now r g).1 ≠ ["OK INACTIVE 100"])
    ∧ (st.active = false → st.progress = 0)
    ∧ (ReachableT st → st.step ≤ st.targets.length)
    ∧ (st.active = true → st.targets.length ≤ st.step →
        ((SelfTester.stepRun now st s).1).active = false) := by
  refine ⟨?_, ?_, fun h => reachableT_step_le st h, ?_⟩
  · intro hv hn
    obtain ⟨stt, vb, nn, vl, vi⟩ := r
    simp only at hv hn
    subst hv
    subst hn
    cases stt <;> cases vl <;> (simp [handle_request]; try decide)
    cases hact : g.tester.active
    · simp [SelfTester.is_active, SelfTester.progress, hact]
      decide
    · simp [SelfTester.is_active, hact]
      exact active_line_ne _
  · intro h
    simp [SelfTester.progress, h]
  · intro ha hl
    simp [SelfTester.stepRun, SelfTester.stop, ha, hl]

/-- C2 amended witness: the facts evaluated on concrete sequencer states and
the GET SELF_TEST request. -/
theorem selfTest_completion_amended_witness :
    ((handle_request 0 getSelfTestReq g0).1 ≠ ["OK INACTIVE 100"])
    ∧ (SelfTester.progress testerIdle = 0)
    ∧ (testerInit.step ≤ testerInit.targets.length)
    ∧ (((SelfTester.stepRun 0 testerDone ActState.init).1).active = false) :=
  ⟨(selfTest_completion_amended 0 g0 getSelfTestReq testerInit ActState.init).1 rfl rfl,
   (selfTest_completion_amended 0 g0 getSelfTestReq testerIdle ActState.init).2.1 rfl,
   (selfTest_completion_amended 0 g0 getSelfTestReq testerInit ActState.init).2.2.1
     (ReachableT.base programTargets),
   (selfTest_completion_amended 0 g0 getSelfTestReq testerDone ActState.init).2.2.2
     rfl (by decide)⟩

/-- Helper: under the buffer invariant every push succeeds (both stores stay
inside the fixed 256-byte array) and the invariant is preserved. -/
theorem push_total (s : ParserState) (c : Char) (h : PInv s) :
    ∃ s', ParserState.push 256 s c = some s' ∧ PInv s' := by
  obtain ⟨hl, hp⟩ := h
  by_cases hpend : s.pending
  · refine ⟨s, ?_, hl, hp⟩
    simp [ParserState.push, ParserState.available, hpend]
  · have hb : s.bufferp < s.buf.length := by omega
    have hb2 : s.bufferp + 1 < s.buf.length := by omega
    by_cases hc : (c = '\n' || s.bufferp + 1 = 255)
    · have hcp : c = '\n' ∨ s.bufferp = 254 := by
        simp only [Bool.or_eq_true, decide_eq_true_eq] at hc
        rcases hc with h1 | h1
        · exact Or.inl h1
        · exact Or.inr (by omega)
      refine ⟨⟨(s.buf.set s.bufferp c).set (s.bufferp + 1) '\x00', 0, true⟩, ?_, ?_, ?_⟩
      · simp [ParserState.push, ParserState.available, hpend, hp, writeBuf, hb, hb2, hcp]
      · simp [hl]
      · simp
    · have hcp : ¬(c = '\n' ∨ s.bufferp = 254) := by
        simp only [Bool.or_eq_true, decide_eq_true_eq] at hc
        push_neg at hc
        rintro (h1 | h1)
        · exact hc.1 h1
        · exact hc.2 (by omega)
      refine ⟨⟨s.buf.set s.bufferp c, s.bufferp + 1, s.pending⟩, ?_, ?_, ?_⟩
      · simp [ParserState.push, ParserState.available, hpend, hp, writeBuf, hb, hcp]
      · simp [hl]
      · have : s.bufferp + 1 ≠ 255 := fun hx => hcp (Or.inr (by omega))
        simp
        omega

/-- Helper: parse_into only clears the pending flag, so it preserves the
buffer invariant. -/
theorem parse_pinv (s : ParserState) (r : Request) :
    PInv s → PInv (ParserState.parse_into s r).2.1 := by
  intro h
  unfold ParserState.parse_into
  split <;> simpa using h

/-- Helper: every reachable parser state satisfies the buffer invariant. -/
theorem reachable_pinv (s : ParserState) (h : Reachable 256 s) : PInv s := by
  induction h with
  | base buf hb => exact ⟨hb, by simp⟩
  | push c s s' hr hps ih =>
    obtain ⟨s2, hps2, hinv⟩ := push_total s c ih
    rw [hps] at hps2
    cases hps2
    exact hinv
  | parse r s hr ih => exact parse_pinv s r ih

/-- C8: while pending, push is a no-op (bytes are silently dropped until
parse_into clears the flag); on every reachable state push never writes past
the 256-byte buffer; and when the last free slot (index 254) fills, push
completes the line — stores the terminator in the reserved slot 255, resets
the cursor and raises pending — so at most one request is ever in flight. -/
theorem requestParser_backpressure (s : ParserState) (c : Char) (r : Request) :
    (s.pending = true → ParserState.push 256 s c = some s)
    ∧ (Reachable 256 s → ParserState.push 256 s c ≠ none)
    ∧ (s.pending = false → s.buf.length = 256 → s.bufferp = 254 →
        ∃ s', ParserState.push 256 s c = some s'
          ∧ s'.pending = true ∧ s'.bufferp = 0)
    ∧ (((ParserState.parse_into s r).2.1).pending = false) := by
  refine ⟨?_, ?_, ?_, ?_⟩
  · intro h
    simp [ParserState.push, ParserState.available, h]
  · intro hr
    obtain ⟨s', hps, _⟩ := push_total s c (reachable_pinv s hr)
    rw [hps]
    simp
  · intro h1 h2 h3
    refine ⟨⟨(s.buf.set s.bufferp c).set (s.bufferp + 1) '\x00', 0, true⟩, ?_, rfl, rfl⟩
    simp [ParserState.push, ParserState.available, writeBuf, h1, h2, h3]
  · unfold ParserState.parse_into
    split
    · rfl
    · rename_i hnp
      simpa using hnp

/-- C8 witness: the backpressure facts on concrete parser states — one with
a pending line, a fresh one, and one whose cursor sits on the last free
slot. -/
theorem requestParser_backpressure_witness :
    (ParserState.push 256 parserPendingSt 'A' = some parserPendingSt)
    ∧ (ParserState.push 256 parserInit 'A' ≠ none)
    ∧ (∃ s', ParserState.push 256 parserAlmostFull 'A' = some s'
        ∧ s'.pending = true ∧ s'.bufferp = 0)
    ∧ (((ParserState.parse_into parserPendingSt Request.init).2.1).pending = false) :=
  ⟨(requestParser_backpressure parserPendingSt 'A' Request.init).1 rfl,
   (requestParser_backpressure parserInit 'A' Request.init).2.1
     (Reachable.base _ (by rw [List.length_replicate])),
   (requestParser_backpressure parserAlmostFull 'A' Request.init).2.2.1 rfl
     (by rw [show parserAlmostFull.buf = List.replicate 256 ' ' from rfl,
        List.length_replicate]) rfl,
   (requestParser_backpressure parserPendingSt 'A' Request.init).2.2.2⟩
